import Mathlib

/-!
Verification of the xz-telegram-call-put trading bot.

Part A embeds the trade-lifecycle reconciler of the bot entry file (the
`handleTradeResult` / `getLastTradeResult` / `subscribeToOpenOrders` /
`subscribeToTicks` handlers).  Money amounts are modelled as rationals.
The money manager, the telegram manager and the trade database are external
collaborators: the model records the calls the reconciler makes to them
(`mmUpdates`, `ledger`) and carries the money manager's balance through an
abstract transition function `mmUpdate`.  Wall-clock timestamps
(`lastActivityTimestamp`) and message formatting are not modelled.

Part B embeds the four signal detectors of `src/utils/strategy.ts` over the
real numbers.
-/

set_option maxHeartbeats 1600000

open scoped Classical

/-- Contract status as used by the handlers.  `opened` models the wire
status string "open". -/
inductive ContractStatus
  | opened
  | won
  | lost
  | sold
  | cancelled
deriving DecidableEq

/-- The fields of `proposal_open_contract` the handlers read.  `contractId`
is carried by the wire message but read nowhere in the handlers (there is no
id matching).  `exit_tick_display_value` and `tick_stream` are passed through
to `handleTradeResult` but never used by it, so they are not modelled. -/
structure ContractData where
  contractId : Option ℕ
  status : Option ContractStatus
  profit : Option ℚ
  buyPrice : Option ℚ
deriving DecidableEq

/-- The record handed to `tradeService.saveTrade`. -/
structure TradeRecord where
  isWin : Bool
  stake : ℚ
  profit : ℚ
  balanceAfter : ℚ
deriving DecidableEq

/-- The module-level mutable state of the bot entry file, together with the
effect logs of the external collaborators. -/
structure BotState where
  isAuthorized : Bool
  isTrading : Bool
  consecutiveWins : ℕ
  lastContractId : Option ℕ
  /-- `lastContractIntervalId !== null`: the watchdog interval is armed. -/
  watchdogActive : Bool
  tickCount : ℕ
  retryToGetLastTradeCount : ℕ
  /-- `telegramManager.isRunningBot()`. -/
  botRunning : Bool
  /-- `moneyManager.getCurrentBalance()`. -/
  mmBalance : ℚ
  /-- Log of the `moneyManager.updateLastTrade(isWin)` calls. -/
  mmUpdates : List Bool
  /-- Log of the `tradeService.saveTrade(record)` calls. -/
  ledger : List TradeRecord
deriving DecidableEq

/-- `handleTradeResult({profit, stake, status, ...})`.  `mmUpdate` is the
external money manager's balance transition applied by
`moneyManager.updateLastTrade`. -/
def handleTradeResult (mmUpdate : Bool → ℚ → ℚ) (profit stake : ℚ)
    (status : ContractStatus) (s : BotState) : BotState :=
  if status = ContractStatus.opened then s
  else
    let isWin := decide (status = ContractStatus.won)
    let currentBalance := s.mmBalance
    let newBalance := if isWin then currentBalance + profit else currentBalance - stake
    { s with
      isTrading := false
      lastContractId := none
      consecutiveWins := if isWin then s.consecutiveWins + 1 else 0
      mmBalance := mmUpdate isWin s.mmBalance
      mmUpdates := s.mmUpdates ++ [isWin]
      ledger := s.ledger ++
        [⟨isWin, stake, if isWin then profit else -stake, newBalance⟩]
      watchdogActive := false }

/-- One outcome of an awaited `proposal_open_contract` poll:
the response (whose `proposal_open_contract` field may be absent), an
`AuthorizationRequired` rejection, or any other rejection. -/
inductive PollOutcome
  | success (contract : Option ContractData)
  | authError
  | otherError
deriving DecidableEq

/-- `getLastTradeResult(contractId)`.  `polls` lists the outcomes of the
successive `proposal_open_contract` sends and `auths` the results of the
successive `authorize()` calls (`authorize` resolves `true` or `false`,
it never rejects, so the `.then` retry always runs).  An empty list means
the corresponding `await` never resolves: no further state change. -/
def getLastTradeResult (mmUpdate : Bool → ℚ → ℚ) :
    Option ℕ → BotState → List PollOutcome → List Bool → BotState
  | none, s, _, _ => s
  | some cid, s, polls, auths =>
    -- `if(!contractId) return`: the id 0 is falsy in JavaScript
    if cid = 0 then s
    else if 2 ≤ s.retryToGetLastTradeCount then s
    else
      match polls, auths with
      | [], _ => s
      | PollOutcome.success contract :: _, _ =>
        let profit := (contract.bind (fun c => c.profit)).getD 0
        let stake := (contract.bind (fun c => c.buyPrice)).getD 0
        let status := (contract.bind (fun c => c.status)).getD ContractStatus.opened
        let s1 := { s with retryToGetLastTradeCount := 0 }
        let s2 := handleTradeResult mmUpdate profit stake status s1
        { s2 with isTrading := false, lastContractId := none, tickCount := 0 }
      | PollOutcome.authError :: _, [] =>
        { s with retryToGetLastTradeCount := s.retryToGetLastTradeCount + 1 }
      | PollOutcome.authError :: rest, a :: arest =>
        let s1 := { s with retryToGetLastTradeCount := s.retryToGetLastTradeCount + 1 }
        let s2 := { s1 with isAuthorized := a }
        getLastTradeResult mmUpdate (some cid) s2 rest arest
      | PollOutcome.otherError :: _, _ => s

/-- One firing of the watchdog interval installed by `createTradeTimeout`:
`if (lastContractId) { getLastTradeResult(lastContractId) }` (again, 0 is
falsy). -/
def watchdogTick (mmUpdate : Bool → ℚ → ℚ) (s : BotState)
    (polls : List PollOutcome) (auths : List Bool) : BotState :=
  match s.lastContractId with
  | none => s
  | some cid => if cid = 0 then s else getLastTradeResult mmUpdate (some cid) s polls auths

/-- One push delivered to the `subscribeToOpenOrders` subscription.  When the
bot is not running the handler only unsubscribes itself (subscription
bookkeeping is not modelled). -/
def pushSettlement (mmUpdate : Bool → ℚ → ℚ) (d : Option ContractData)
    (s : BotState) : BotState :=
  if s.botRunning = false then s
  else
    let status := (d.bind (fun c => c.status)).getD ContractStatus.opened
    let profit := (d.bind (fun c => c.profit)).getD 0
    -- `buy_price || 0` on a number coincides with `?? 0` except at 0 itself,
    -- where both produce 0
    let stake := (d.bind (fun c => c.buyPrice)).getD 0
    handleTradeResult mmUpdate profit stake status s

/-- Per-instrument tick window update for a `msg_type === "tick"` event in
`subscribeToTicks` (deployment capacity 50): the window is shifted and the
price appended only when the window already holds at least 50 prices. -/
def tickUpdate (price : ℚ) (w : List ℚ) : List ℚ :=
  if 50 ≤ w.length then w.drop 1 ++ [price] else w

/-- Tick window update for a `msg_type === "history"` event: the window is
replaced by `data.history?.prices || []`. -/
def historyUpdate (prices : Option (List ℚ)) (_w : List ℚ) : List ℚ :=
  prices.getD []

/-- A money manager transition for concrete counterexamples (the identity:
the precise external policy is irrelevant to the call logs). -/
def mmId : Bool → ℚ → ℚ := fun _ b => b

/-- A concrete in-flight state: contract 7 placed, watchdog armed. -/
def placedState : BotState :=
  ⟨true, true, 0, some 7, true, 3, 0, true, 100, [], []⟩

/-- A poll response reporting contract 7 still open. -/
def openPollData : Option ContractData :=
  some ⟨some 7, some ContractStatus.opened, some 0, some (35/100)⟩

/-- A push/poll payload reporting contract 7 settled as won. -/
def wonData : Option ContractData :=
  some ⟨some 7, some ContractStatus.won, some (7/25), some (35/100)⟩

/-!
Part B: the four signal detectors of `src/utils/strategy.ts`, embedded over
the real numbers (JavaScript floating-point arithmetic is modelled by exact
real arithmetic; `isFinite` checks hold trivially except where a logarithm
of a non-positive ratio is involved, which is modelled by the corresponding
positivity guard).  The display-only `razao` strings (number formatting) are
not modelled.  JavaScript indexing of an empty array would yield `NaN`
downstream; the embedding uses `headD`/`getLastD` with default 0, which is
only ever exercised on nonempty slices because of the length guards.
-/

noncomputable section

inductive Sinal
  | CALL
  | PUT
  | HOLD
deriving DecidableEq

inductive Direcao
  | ALTA
  | BAIXA
  | LATERAL
deriving DecidableEq

inductive Persistencia
  | ALTA
  | MEDIA
  | BAIXA
deriving DecidableEq

inductive Comportamento
  | PERSISTENTE
  | ANTIPERSISTENTE
  | ALEATORIO
deriving DecidableEq

/-- `arr.slice(-n)`: the last `n` elements (the whole list when shorter). -/
def sliceLast (n : ℕ) (l : List ℝ) : List ℝ := l.drop (l.length - n)

/-- The list of consecutive differences `arr[i] - arr[i-1]`; summing it is
the `reduce` pattern `acc + (t - arr[i-1])` used throughout the source. -/
def consecDiffs (l : List ℝ) : List ℝ := List.zipWith (fun a b => b - a) l l.tail

/-- Running cumulative sums (the `cumSum += dev; cumDevs.push(cumSum)`
loop). -/
def cumSums (l : List ℝ) : List ℝ := (l.scanl (fun acc d => acc + d) 0).tail

/-- `Math.max(...l)` (and the fold from `-Infinity`): the maximum of a
nonempty list; 0 on `[]`, which the source never hits. -/
def listMax : List ℝ → ℝ
  | [] => 0
  | h :: t => t.foldl max h

/-- `Math.min(...l)` (and the fold from `Infinity`). -/
def listMin : List ℝ → ℝ
  | [] => 0
  | h :: t => t.foldl min h

structure MeanReversionResult where
  sinal : Sinal
  confianca : ℝ
  zScore : ℝ
  media : ℝ
  desvioPadrao : ℝ
  velocidade : ℝ

/-- `estrategiaMeanReversion(ticks)`. -/
def estrategiaMeanReversion (ticks : List ℝ) : MeanReversionResult :=
  let defaultResult : MeanReversionResult := ⟨Sinal.HOLD, 0, 0, 0, 0, 0⟩
  if ticks.length < 20 then defaultResult
  else
    let ultimos20 := sliceLast 20 ticks
    let ultimos10 := sliceLast 10 ticks
    let atual := ticks.getLastD 0
    let media := ultimos20.sum / 20
    let desvioPadrao :=
      Real.sqrt ((ultimos20.map (fun t => (t - media) ^ 2)).sum / 20)
    if desvioPadrao = 0 then
      { defaultResult with media := media, desvioPadrao := desvioPadrao }
    else
      let zScore := (atual - media) / desvioPadrao
      let ultimos5 := sliceLast 5 ultimos10
      let velocidade := (consecDiffs ultimos5).sum
      let velocidadeAnterior := (consecDiffs (ultimos10.take 5)).sum
      let aceleracao := velocidade - velocidadeAnterior
      if 1.5 < zScore ∧ 0 < velocidade then
        let boost := if aceleracao < 0 then (0.1 : ℝ) else 0
        let confianca := min ((|zScore| - 1) / 2 + boost) 0.85
        ⟨Sinal.PUT, confianca, zScore, media, desvioPadrao, velocidade⟩
      else if zScore < -1.5 ∧ velocidade < 0 then
        let boost := if 0 < aceleracao then (0.1 : ℝ) else 0
        let confianca := min ((|zScore| - 1) / 2 + boost) 0.85
        ⟨Sinal.CALL, confianca, zScore, media, desvioPadrao, velocidade⟩
      else
        ⟨Sinal.HOLD, 0, zScore, media, desvioPadrao, velocidade⟩

structure MomentumConfirmadoResult where
  sinal : Sinal
  confianca : ℝ
  consecutivas : ℕ
  direcao : Direcao
  variacaoTotal : ℝ
  variacaoMedia : ℝ
  forcaMovimento : ℝ

/-- The consecutive-direction counting loop of `estrategiaMomentumConfirmado`
(the differences are walked from the most recent backwards, so the input is
the reversed difference list): a tie stops the count, and a direction flip
stops it once the other counter is positive. -/
def loopConsecutivas : List ℝ → ℕ → ℕ → ℕ × ℕ
  | [], alta, baixa => (alta, baixa)
  | d :: rest, alta, baixa =>
    if 0 < d then
      if 0 < baixa then (alta, baixa) else loopConsecutivas rest (alta + 1) baixa
    else if d < 0 then
      if 0 < alta then (alta, baixa) else loopConsecutivas rest alta (baixa + 1)
    else (alta, baixa)

/-- `estrategiaMomentumConfirmado(ticks)`.  The two `if` blocks of the source
only return on a non-LATERAL direction, so the JavaScript fall-through is
flattened into one `if` chain. -/
def estrategiaMomentumConfirmado (ticks : List ℝ) : MomentumConfirmadoResult :=
  let defaultResult : MomentumConfirmadoResult :=
    ⟨Sinal.HOLD, 0, 0, Direcao.LATERAL, 0, 0, 0⟩
  if ticks.length < 15 then defaultResult
  else
    let ultimos5 := sliceLast 5 ticks
    let ultimos15 := sliceLast 15 ticks
    let counts := loopConsecutivas ((consecDiffs ultimos5).reverse) 0 0
    let consecutivasAlta := counts.1
    let consecutivasBaixa := counts.2
    let consecutivas := max consecutivasAlta consecutivasBaixa
    let direcao : Direcao :=
      if consecutivasBaixa < consecutivasAlta then Direcao.ALTA
      else if consecutivasAlta < consecutivasBaixa then Direcao.BAIXA
      else Direcao.LATERAL
    let variacaoTotal := ultimos5.getLastD 0 - ultimos5.headD 0
    let variacaoMedia := ((consecDiffs ultimos15).map (fun d => |d|)).sum / 14
    let forcaMovimento :=
      if 0 < variacaoMedia then |variacaoTotal| / (variacaoMedia * 5) else 0
    if 3 ≤ consecutivas ∧ 1.5 < forcaMovimento ∧ direcao = Direcao.ALTA then
      ⟨Sinal.PUT,
        min (0.5 + ((consecutivas : ℝ) - 3) * 0.1 + (forcaMovimento - 1.5) * 0.1) 0.8,
        consecutivas, direcao, variacaoTotal, variacaoMedia, forcaMovimento⟩
    else if 3 ≤ consecutivas ∧ 1.5 < forcaMovimento ∧ direcao = Direcao.BAIXA then
      ⟨Sinal.CALL,
        min (0.5 + ((consecutivas : ℝ) - 3) * 0.1 + (forcaMovimento - 1.5) * 0.1) 0.8,
        consecutivas, direcao, variacaoTotal, variacaoMedia, forcaMovimento⟩
    else if 4 ≤ consecutivas ∧ direcao = Direcao.ALTA then
      ⟨Sinal.PUT, min (0.45 + ((consecutivas : ℝ) - 4) * 0.1) 0.7,
        consecutivas, direcao, variacaoTotal, variacaoMedia, forcaMovimento⟩
    else if 4 ≤ consecutivas ∧ direcao = Direcao.BAIXA then
      ⟨Sinal.CALL, min (0.45 + ((consecutivas : ℝ) - 4) * 0.1) 0.7,
        consecutivas, direcao, variacaoTotal, variacaoMedia, forcaMovimento⟩
    else
      ⟨Sinal.HOLD, 0, consecutivas, direcao, variacaoTotal, variacaoMedia,
        forcaMovimento⟩

/-- Log-returns `ln(ticks[i] / ticks[i-1])` as pushed by `estrategiaHurst`
(no guards in this variant). -/
def logReturns (l : List ℝ) : List ℝ :=
  List.zipWith (fun a b => Real.log (b / a)) l l.tail

/-- One step of the scale loop `scale = Math.floor(scale * 1.4)`.  Over the
scales this loop actually visits starting from 8 (8, 11, 15, 21, 29, 40, 56,
78, ...), the exact rational floor coincides with the double-precision
computation of the source. -/
def nextScale (s : ℕ) : ℕ := s * 14 / 10

/-- The scales visited by `for (scale = 8; scale <= maxScale;
scale = Math.floor(scale * 1.4))`.  The `8 ≤ scale` conjunct is an invariant
of the loop (it starts at 8 and `nextScale` increases); it is carried in the
guard only to justify termination. -/
def scaleList (scale maxScale : ℕ) : List ℕ :=
  if h : 8 ≤ scale ∧ scale ≤ maxScale then
    scale :: scaleList (nextScale scale) maxScale
  else []
termination_by maxScale + 1 - scale
decreasing_by
  have h1 : scale + 1 ≤ nextScale scale := by
    rw [nextScale]
    rw [Nat.le_div_iff_mul_le (by norm_num)]
    omega
  omega

/-- One window's R/S computation in `estrategiaHurst`; `none` models the
`continue` paths (short window, or `S = 0`; `isFinite(R / S)` holds in the
real model whenever `S > 0`). -/
def rsWindowHurst (scale : ℕ) (window : List ℝ) : Option ℝ :=
  if window.length < scale then none
  else
    let mean := window.sum / (scale : ℝ)
    let deviations := window.map (fun x => x - mean)
    let cumDevs := cumSums deviations
    let R := listMax cumDevs - listMin cumDevs
    let S := Real.sqrt ((deviations.map (fun v => v * v)).sum / (scale : ℝ))
    if 0 < S then some (R / S) else none

/-- The `rsValues` collected for one scale in `estrategiaHurst` (windows
`w*scale .. (w+1)*scale` for `w < floor(len/scale)`). -/
def rsValuesHurst (diffs : List ℝ) (scale : ℕ) : List ℝ :=
  (List.range (diffs.length / scale)).filterMap
    (fun w => rsWindowHurst scale ((diffs.drop (w * scale)).take scale))

/-- The regression point `(ln scale, ln avgRS)` contributed by one scale in
`estrategiaHurst`, when the scale is valid. -/
def hurstPointAtScale (diffs : List ℝ) (scale : ℕ) : Option (ℝ × ℝ) :=
  let rsValues := rsValuesHurst diffs scale
  if rsValues.length = 0 then none
  else
    let avgRS := rsValues.sum / (rsValues.length : ℝ)
    if 0 < avgRS then some (Real.log scale, Real.log avgRS) else none

/-- The parallel `scales`/`ranges` arrays of `estrategiaHurst`, as a list of
`(ln scale, ln avgRS)` pairs. -/
def hurstPointsOf (ticks : List ℝ) : List (ℝ × ℝ) :=
  let diffs := logReturns ticks
  (scaleList 8 (diffs.length / 3)).filterMap (hurstPointAtScale diffs)

structure HurstEstrategiaResult where
  sinal : Sinal
  confianca : ℝ
  expoente : ℝ
  persistencia : Persistencia
  previsibilidade : ℝ
  comportamento : Comportamento
  direcaoAtual : Direcao
  r2 : ℝ

/-- The linear-regression block of `estrategiaHurst`: slope (clamped to
[0.1, 0.9]) and R² from the collected points, or the neutral `(0.5, 0)` when
fewer than 3 points were collected or the denominator is degenerate. -/
def hurstFit (points : List (ℝ × ℝ)) : ℝ × ℝ :=
  if 3 ≤ points.length then
    let n : ℝ := (points.length : ℝ)
    let sumX := (points.map Prod.fst).sum
    let sumY := (points.map Prod.snd).sum
    let sumXY := (points.map (fun p => p.1 * p.2)).sum
    let sumX2 := (points.map (fun p => p.1 * p.1)).sum
    let denominator := n * sumX2 - sumX * sumX
    if 1e-10 < |denominator| then
      let slope := (n * sumXY - sumX * sumY) / denominator
      let expoente := max 0.1 (min 0.9 slope)
      let intercept := (sumY - slope * sumX) / n
      let yMean := sumY / n
      let ssTotal := (points.map (fun p => (p.2 - yMean) ^ 2)).sum
      let ssRes :=
        (points.map (fun p => (p.2 - (intercept + slope * p.1)) ^ 2)).sum
      let r2 : ℝ := if 0 < ssTotal then 1 - ssRes / ssTotal else 0
      (expoente, r2)
    else (0.5, 0)
  else (0.5, 0)

/-- `estrategiaHurst(ticks)`. -/
def estrategiaHurst (ticks : List ℝ) : HurstEstrategiaResult :=
  let defaultResult : HurstEstrategiaResult :=
    ⟨Sinal.HOLD, 0, 0.5, Persistencia.MEDIA, 0, Comportamento.ALEATORIO,
      Direcao.LATERAL, 0⟩
  if ticks.length < 50 then defaultResult
  else
    let diffs := logReturns ticks
    let variance := (diffs.map (fun d => d * d)).sum / (diffs.length : ℝ)
    if variance < 1e-12 then defaultResult
    else
      let points := hurstPointsOf ticks
      let er : ℝ × ℝ := hurstFit points
      let expoente := er.1
      let r2 := er.2
      let persistencia : Persistencia :=
        if 0.6 < expoente then Persistencia.ALTA
        else if 0.4 < expoente then Persistencia.MEDIA
        else Persistencia.BAIXA
      let desvioHurst := |expoente - 0.5| * 2
      let previsibilidade := desvioHurst * max r2 0.3
      let comportamento : Comportamento :=
        if 0.58 < expoente then Comportamento.PERSISTENTE
        else if expoente < 0.42 then Comportamento.ANTIPERSISTENTE
        else Comportamento.ALEATORIO
      let ultimos5 := sliceLast 5 ticks
      let variacaoRecente := ultimos5.getLastD 0 - ultimos5.headD 0
      let direcaoAtual : Direcao :=
        if 0 < variacaoRecente then Direcao.ALTA
        else if variacaoRecente < 0 then Direcao.BAIXA
        else Direcao.LATERAL
      if 0.58 < expoente ∧ 0.5 < r2 ∧ direcaoAtual ≠ Direcao.LATERAL then
        let confianca := min (desvioHurst * r2 * 1.5) 0.7
        if direcaoAtual = Direcao.ALTA then
          ⟨Sinal.CALL, confianca, expoente, persistencia, previsibilidade,
            comportamento, direcaoAtual, r2⟩
        else
          ⟨Sinal.PUT, confianca, expoente, persistencia, previsibilidade,
            comportamento, direcaoAtual, r2⟩
      else if expoente < 0.42 ∧ 0.5 < r2 ∧ direcaoAtual ≠ Direcao.LATERAL then
        let confianca := min (desvioHurst * r2 * 1.5) 0.7
        if direcaoAtual = Direcao.ALTA then
          ⟨Sinal.PUT, confianca, expoente, persistencia, previsibilidade,
            comportamento, direcaoAtual, r2⟩
        else
          ⟨Sinal.CALL, confianca, expoente, persistencia, previsibilidade,
            comportamento, direcaoAtual, r2⟩
      else
        ⟨Sinal.HOLD, 0, expoente, persistencia, previsibilidade,
          comportamento, direcaoAtual, r2⟩

/-- The result record of `calcularHurstRapido`. -/
structure HurstRapido where
  hurst : ℝ
  r2 : ℝ

/-- Guarded log-returns of `calcularHurstRapido`: a return is kept when
`ticks[i-1] > 0` and `isFinite(Math.log(ticks[i]/ticks[i-1]))`; over the
reals the latter is the positivity of the ratio, i.e. of `ticks[i]`. -/
def logReturnsGuarded (l : List ℝ) : List ℝ :=
  (List.zip l l.tail).filterMap
    (fun p => if 0 < p.1 ∧ 0 < p.2 then some (Real.log (p.2 / p.1)) else none)

/-- One window's R/S computation in `calcularHurstRapido`.  The source's
folds from `-Infinity` / `Infinity` over the nonempty cumulative-deviation
list coincide with `listMax` / `listMin`. -/
def rsWindowRapido (scale : ℕ) (window : List ℝ) : Option ℝ :=
  let mean := window.sum / (scale : ℝ)
  let deviations := window.map (fun x => x - mean)
  let cumDevs := cumSums deviations
  let R := listMax cumDevs - listMin cumDevs
  let S := Real.sqrt ((deviations.map (fun v => v * v)).sum / (scale : ℝ))
  if 0 < S ∧ 0 < R then some (R / S) else none

/-- The regression point contributed by one of the fixed scales of
`calcularHurstRapido` (skipped when `diffs.length < scale * 2`). -/
def rapidoPointAtScale (diffs : List ℝ) (scale : ℕ) : Option (ℝ × ℝ) :=
  if diffs.length < scale * 2 then none
  else
    let rsValues :=
      (List.range (diffs.length / scale)).filterMap
        (fun w => rsWindowRapido scale ((diffs.drop (w * scale)).take scale))
    if rsValues.length = 0 then none
    else
      let avgRS := rsValues.sum / (rsValues.length : ℝ)
      if 0 < avgRS then some (Real.log scale, Real.log avgRS) else none

/-- The `scales`/`ranges` pairs collected by `calcularHurstRapido` over its
fixed scales `[8, 12, 16, 24, 32]`. -/
def rapidoPointsOf (diffs : List ℝ) : List (ℝ × ℝ) :=
  [8, 12, 16, 24, 32].filterMap (rapidoPointAtScale diffs)

/-- The linear-regression block of `calcularHurstRapido` (R² clamped to be
nonnegative, degenerate denominator neutral). -/
def rapidoFit (points : List (ℝ × ℝ)) : HurstRapido :=
  let n : ℝ := (points.length : ℝ)
  let sumX := (points.map Prod.fst).sum
  let sumY := (points.map Prod.snd).sum
  let sumXY := (points.map (fun p => p.1 * p.2)).sum
  let sumX2 := (points.map (fun p => p.1 * p.1)).sum
  let denominator := n * sumX2 - sumX * sumX
  if |denominator| < 1e-10 then ⟨0.5, 0⟩
  else
    let slope := (n * sumXY - sumX * sumY) / denominator
    let hurst := max 0.1 (min 0.9 slope)
    let intercept := (sumY - slope * sumX) / n
    let yMean := sumY / n
    let ssTotal := (points.map (fun p => (p.2 - yMean) ^ 2)).sum
    let ssRes :=
      (points.map (fun p => (p.2 - (intercept + slope * p.1)) ^ 2)).sum
    let r2 : ℝ := if 0 < ssTotal then max 0 (1 - ssRes / ssTotal) else 0
    ⟨hurst, r2⟩

/-- `calcularHurstRapido(ticks)`. -/
def calcularHurstRapido (ticks : List ℝ) : HurstRapido :=
  let diffs := logReturnsGuarded ticks
  if diffs.length < 30 then ⟨0.5, 0⟩
  else
    let points := rapidoPointsOf diffs
    if points.length < 2 then ⟨0.5, 0⟩
    else rapidoFit points

/-- The sign of a tick-to-tick difference
(`diff > 0 ? 1 : diff < 0 ? -1 : 0`). -/
def sinalDiff (d : ℝ) : ℤ := if 0 < d then 1 else if d < 0 then -1 else 0

/-- The `consecutivosMesmaDirecao` loop of `momentumPersistentStrategy`
over the reversed difference list: zero differences are skipped
(`continue`), the first nonzero difference fixes the direction, and the
count stops at the first opposite nonzero difference. -/
def consecLoop : List ℝ → Option ℤ → ℕ → ℕ
  | [], _, c => c
  | d :: rest, cur, c =>
    let dir := sinalDiff d
    if dir = 0 then consecLoop rest cur c
    else
      match cur with
      | none => consecLoop rest (some dir) 1
      | some cd => if dir = cd then consecLoop rest cur (c + 1) else c

/-- The `mudancasDirecao` loop of `momentumPersistentStrategy` over the
forward difference list. -/
def mudancasLoop : List ℝ → ℤ → ℕ → ℕ
  | [], _, m => m
  | d :: rest, ultima, m =>
    let dir := sinalDiff d
    if dir ≠ 0 ∧ dir ≠ ultima then
      mudancasLoop rest dir (if ultima ≠ 0 then m + 1 else m)
    else mudancasLoop rest ultima m

/-- The efficiency ratio computed from the last 15 ticks. -/
def eficiencia15 (ticks : List ℝ) : ℝ :=
  let ultimos15 := sliceLast 15 ticks
  let movimentoLiquido := |ultimos15.getLastD 0 - ultimos15.headD 0|
  let movimentoTotal := ((consecDiffs ultimos15).map (fun d => |d|)).sum
  if 0 < movimentoTotal then movimentoLiquido / movimentoTotal else 0

/-- `consecutivosMesmaDirecao` computed from the last 15 ticks. -/
def consecutivos15 (ticks : List ℝ) : ℕ :=
  consecLoop ((consecDiffs (sliceLast 15 ticks)).reverse) none 0

/-- `mudancasDirecao` computed from the last 15 ticks. -/
def mudancasDirecao15 (ticks : List ℝ) : ℕ :=
  mudancasLoop (consecDiffs (sliceLast 15 ticks)) 0 0

/-- The simplified ADX score (0 to 100) of `momentumPersistentStrategy`. -/
def adx15 (ticks : List ℝ) : ℝ :=
  eficiencia15 ticks * 40 + min ((consecutivos15 ticks : ℝ) * 10) 30 +
    max (30 - (mudancasDirecao15 ticks : ℝ) * 5) 0

/-- The lateral-market flag of `momentumPersistentStrategy`:
`eficiencia < 0.3 || adx < 25 || mudancasDirecao > 5`. -/
def mpsIsLateralCalc (ticks : List ℝ) : Bool :=
  if eficiencia15 ticks < 0.3 ∨ adx15 ticks < 25 ∨ 5 < mudancasDirecao15 ticks
  then true else false

/-- The normalized force of the short-window move
(`stdDev > 0 ? Math.abs(varCurta) / stdDev : 0`). -/
def forcaDe (stdDev varCurta : ℝ) : ℝ :=
  if 0 < stdDev then |varCurta| / stdDev else 0

/-- The three-way direction call against the noise threshold. -/
def direcaoDe (threshold v : ℝ) : Direcao :=
  if threshold < v then Direcao.ALTA
  else if v < -threshold then Direcao.BAIXA
  else Direcao.LATERAL

structure MomentumPersistenteResult where
  sinal : Sinal
  confianca : ℝ
  hurst : ℝ
  r2 : ℝ
  direcaoCurta : Direcao
  direcaoMedia : Direcao
  direcaoLonga : Direcao
  alinhamento : ℝ
  forca : ℝ
  isPersistente : Bool
  eficiencia : ℝ
  adx : ℝ
  isLateral : Bool

/-- The body of `momentumPersistentStrategy` with the lateral flag passed in
(the source computes the flag and stores it in the result record without
ever reading it; the short-input default hard-codes `isLateral: true` as in
the source).  `hurstHistorico = some 0` is falsy in JavaScript, so it also
triggers the local Hurst computation. -/
def momentumPersistentCore (ticks : List ℝ) (hurstHistorico : Option ℝ)
    (latFlag : Bool) : MomentumPersistenteResult :=
  let defaultResult : MomentumPersistenteResult :=
    ⟨Sinal.HOLD, 0, 0.5, 0, Direcao.LATERAL, Direcao.LATERAL, Direcao.LATERAL,
      0, 0, false, 0, 0, true⟩
  if ticks.length < 20 then defaultResult
  else
    let hr : ℝ × ℝ :=
      if (hurstHistorico = none ∨ hurstHistorico = some 0) ∧ 50 ≤ ticks.length
      then ((calcularHurstRapido ticks).hurst, (calcularHurstRapido ticks).r2)
      else (hurstHistorico.getD 0.5, 0.8)
    let hurst := hr.1
    let r2 := hr.2
    let isPersistente : Bool := if 0.58 < hurst then true else false
    let ultimos3 := sliceLast 3 ticks
    let ultimos7 := sliceLast 7 ticks
    let ultimos15 := sliceLast 15 ticks
    let varCurta := ultimos3.getLastD 0 - ultimos3.headD 0
    let varMedia := ultimos7.getLastD 0 - ultimos7.headD 0
    let varLonga := ultimos15.getLastD 0 - ultimos15.headD 0
    let avgTick := ticks.sum / (ticks.length : ℝ)
    let threshold := avgTick * 0.0001
    let direcaoCurta := direcaoDe threshold varCurta
    let direcaoMedia := direcaoDe threshold varMedia
    let direcaoLonga := direcaoDe threshold varLonga
    let direcoes := [direcaoCurta, direcaoMedia, direcaoLonga]
    let altaCount := (direcoes.filter (fun d => decide (d = Direcao.ALTA))).length
    let baixaCount := (direcoes.filter (fun d => decide (d = Direcao.BAIXA))).length
    let lateralCount :=
      (direcoes.filter (fun d => decide (d = Direcao.LATERAL))).length
    let maxCount := max altaCount baixaCount
    let alinhamento := ((maxCount : ℝ) - (lateralCount : ℝ) * 0.5) / 3
    let ultimos20 := sliceLast 20 ticks
    let media20 := ultimos20.sum / 20
    let stdDev :=
      Real.sqrt ((ultimos20.map (fun t => (t - media20) ^ 2)).sum / 20)
    let forca := forcaDe stdDev varCurta
    let eficiencia := eficiencia15 ticks
    let adx := adx15 ticks
    if 0.58 < hurst ∧ 0.8 ≤ alinhamento then
      let confiancaBase := (hurst - 0.5) * 2
      let confiancaR2 := r2 * 0.2
      let confiancaAlinhamento := alinhamento * 0.2
      let confiancaForca := min (forca * 0.1) 0.2
      let confiancaEficiencia := eficiencia * 0.2
      let confianca :=
        min (confiancaBase + confiancaR2 + confiancaAlinhamento +
          confiancaForca + confiancaEficiencia) 0.80
      if baixaCount < altaCount then
        ⟨Sinal.CALL, confianca, hurst, r2, direcaoCurta, direcaoMedia,
          direcaoLonga, alinhamento, forca, isPersistente, eficiencia, adx,
          latFlag⟩
      else
        ⟨Sinal.PUT, confianca, hurst, r2, direcaoCurta, direcaoMedia,
          direcaoLonga, alinhamento, forca, isPersistente, eficiencia, adx,
          latFlag⟩
    else if 0.58 < hurst ∧ 2 ≤ maxCount ∧ 1.5 < forca then
      let confianca := min ((hurst - 0.5) * 1.5 + forca * 0.1) 0.55
      if baixaCount < altaCount then
        ⟨Sinal.CALL, confianca, hurst, r2, direcaoCurta, direcaoMedia,
          direcaoLonga, alinhamento, forca, isPersistente, eficiencia, adx,
          latFlag⟩
      else
        ⟨Sinal.PUT, confianca, hurst, r2, direcaoCurta, direcaoMedia,
          direcaoLonga, alinhamento, forca, isPersistente, eficiencia, adx,
          latFlag⟩
    else
      ⟨Sinal.HOLD, 0, hurst, r2, direcaoCurta, direcaoMedia, direcaoLonga,
        alinhamento, forca, isPersistente, eficiencia, adx, latFlag⟩

/-- `momentumPersistentStrategy(ticks, hurstHistorico?)`. -/
def momentumPersistentStrategy (ticks : List ℝ)
    (hurstHistorico : Option ℝ) : MomentumPersistenteResult :=
  momentumPersistentCore ticks hurstHistorico (mpsIsLateralCalc ticks)

end
noncomputable section

/-- A 31-tick series alternating between 1 and `e`: its guarded log-returns
are exactly the alternating sequence `1, -1, 1, -1, ...` of length 30. -/
def ticks31 : List ℝ :=
  [1, Real.exp 1, 1, Real.exp 1, 1, Real.exp 1, 1, Real.exp 1,
   1, Real.exp 1, 1, Real.exp 1, 1, Real.exp 1, 1, Real.exp 1,
   1, Real.exp 1, 1, Real.exp 1, 1, Real.exp 1, 1, Real.exp 1,
   1, Real.exp 1, 1, Real.exp 1, 1, Real.exp 1, 1]

/-- The guarded log-returns of `ticks31`. -/
def altDiffs30 : List ℝ :=
  [1, -1, 1, -1, 1, -1, 1, -1, 1, -1, 1, -1, 1, -1, 1, -1,
   1, -1, 1, -1, 1, -1, 1, -1, 1, -1, 1, -1, 1, -1]

/-- A scale-8 window of `altDiffs30`. -/
def alt8 : List ℝ := [1, -1, 1, -1, 1, -1, 1, -1]

/-- A scale-12 window of `altDiffs30`. -/
def alt12 : List ℝ := [1, -1, 1, -1, 1, -1, 1, -1, 1, -1, 1, -1]

end
/-- Claim C1 is false as stated: polling the pending contract 7 from state
`placedState` and receiving status "open" does change the reconciler state —
the pending contract id is cleared and the in-trading flag is dropped. -/
theorem c1_counterexample :
    (getLastTradeResult mmId (some 7) placedState
        [PollOutcome.success openPollData] []).lastContractId = none ∧
    placedState.lastContractId = some 7 ∧
    (getLastTradeResult mmId (some 7) placedState
        [PollOutcome.success openPollData] []).isTrading = false ∧
    placedState.isTrading = true :=
  ⟨rfl, rfl, rfl, rfl⟩

/-- Claim C1, amended: a successful poll whose status is "open" applies no
settlement — `handleTradeResult` returns immediately, so the balance, the
money-manager call log, the ledger, the consecutive-wins counter and the
watchdog are untouched — but `getLastTradeResult` nevertheless clears the
pending contract id, the in-trading flag and the tick counter, and resets
the retry counter to 0. -/
theorem c1_amended (mmUpdate : Bool → ℚ → ℚ) (s : BotState) (cid : ℕ)
    (contract : Option ContractData) (polls : List PollOutcome)
    (auths : List Bool) (hcid : cid ≠ 0)
    (hretry : s.retryToGetLastTradeCount < 2)
    (hopen : (contract.bind (fun c => c.status)).getD ContractStatus.opened
      = ContractStatus.opened) :
    getLastTradeResult mmUpdate (some cid) s
        (PollOutcome.success contract :: polls) auths =
      { s with retryToGetLastTradeCount := 0, isTrading := false,
               lastContractId := none, tickCount := 0 } := by
  rw [getLastTradeResult, if_neg hcid, if_neg (by omega)]
  simp [hopen, handleTradeResult]

/-- Witness for `c1_amended` at a concrete input. -/
theorem c1_witness :
    getLastTradeResult mmId (some 7) placedState
        [PollOutcome.success openPollData] [] =
      { placedState with retryToGetLastTradeCount := 0, isTrading := false,
                         lastContractId := none, tickCount := 0 } :=
  c1_amended mmId placedState 7 openPollData [] [] (by decide) (by decide)
    (by decide)

/-- Claim C2 is false as stated: after a settled push for contract 7 is
processed the reconciler is back to IDLE (`lastContractId = none`,
`isTrading = false`) with one ledger record and one money-manager update,
yet a second settled push for the same contract id is reprocessed in full —
the ledger and the money-manager call log grow again. -/
theorem c2_counterexample :
    (pushSettlement mmId wonData placedState).lastContractId = none ∧
    (pushSettlement mmId wonData placedState).isTrading = false ∧
    (pushSettlement mmId wonData placedState).ledger.length = 1 ∧
    (pushSettlement mmId wonData placedState).mmUpdates.length = 1 ∧
    (pushSettlement mmId wonData
        (pushSettlement mmId wonData placedState)).ledger.length = 2 ∧
    (pushSettlement mmId wonData
        (pushSettlement mmId wonData placedState)).mmUpdates.length = 2 :=
  ⟨rfl, rfl, rfl, rfl, rfl, rfl⟩

/-- Claim C2, amended: settlement idempotence holds only on the poll path —
once the pending contract id is cleared, a watchdog tick is a no-op — while
a second settled push (the handler does no contract-id matching) is always
reprocessed in full: `updateLastTrade` is called again and a further ledger
record is appended. -/
theorem c2_amended (mmUpdate : Bool → ℚ → ℚ) (s : BotState)
    (polls : List PollOutcome) (auths : List Bool) (d : Option ContractData) :
    (s.lastContractId = none → watchdogTick mmUpdate s polls auths = s) ∧
    (s.botRunning = true →
      (d.bind (fun c => c.status)).getD ContractStatus.opened ≠
        ContractStatus.opened →
      (pushSettlement mmUpdate d s).ledger.length = s.ledger.length + 1 ∧
      (pushSettlement mmUpdate d s).mmUpdates.length
        = s.mmUpdates.length + 1) := by
  constructor
  · intro h
    rw [watchdogTick, h]
  · intro hrun hset
    rw [pushSettlement, if_neg (by rw [hrun]; exact fun h => Bool.noConfusion h)]
    rw [handleTradeResult, if_neg hset]
    simp

/-- Witness for `c2_amended` at a concrete input. -/
theorem c2_witness :
    ((pushSettlement mmId wonData placedState).lastContractId = none →
      watchdogTick mmId (pushSettlement mmId wonData placedState) [] [] =
        pushSettlement mmId wonData placedState) ∧
    ((pushSettlement mmId wonData placedState).botRunning = true →
      (wonData.bind (fun c => c.status)).getD ContractStatus.opened ≠
        ContractStatus.opened →
      (pushSettlement mmId wonData
          (pushSettlement mmId wonData placedState)).ledger.length =
        (pushSettlement mmId wonData placedState).ledger.length + 1 ∧
      (pushSettlement mmId wonData
          (pushSettlement mmId wonData placedState)).mmUpdates.length =
        (pushSettlement mmId wonData placedState).mmUpdates.length + 1) :=
  c2_amended mmId (pushSettlement mmId wonData placedState) [] [] wonData

/-- `handleTradeResult` never touches the retry counter. -/
lemma handleTradeResult_retry (mmUpdate : Bool → ℚ → ℚ) (profit stake : ℚ)
    (status : ContractStatus) (s : BotState) :
    (handleTradeResult mmUpdate profit stake status s).retryToGetLastTradeCount
      = s.retryToGetLastTradeCount := by
  rw [handleTradeResult]
  split_ifs <;> rfl

/-- Claim C3: an `AuthorizationRequired` poll failure triggers exactly one
re-authorization followed by a retry of the same poll (third conjunct: the
step consumes one `authorize()` outcome, increments the retry counter and
re-runs `getLastTradeResult` with the same contract id); the retry counter
never exceeds 2 (second conjunct); and once the bound is reached a poll
returns with no state change at all (first conjunct). -/
theorem c3_auth_retry (mmUpdate : Bool → ℚ → ℚ) (cid : ℕ) (s : BotState)
    (polls rest : List PollOutcome) (auths arest : List Bool) (a : Bool) :
    (2 ≤ s.retryToGetLastTradeCount →
      getLastTradeResult mmUpdate (some cid) s polls auths = s) ∧
    (s.retryToGetLastTradeCount ≤ 2 →
      (getLastTradeResult mmUpdate (some cid) s polls auths).retryToGetLastTradeCount
        ≤ 2) ∧
    (cid ≠ 0 → s.retryToGetLastTradeCount < 2 →
      getLastTradeResult mmUpdate (some cid) s
          (PollOutcome.authError :: rest) (a :: arest) =
        getLastTradeResult mmUpdate (some cid)
          { s with retryToGetLastTradeCount := s.retryToGetLastTradeCount + 1,
                   isAuthorized := a } rest arest) := by
  refine ⟨?_, ?_, ?_⟩
  · intro h
    cases polls with
    | nil =>
      rw [getLastTradeResult]
      by_cases hcid : cid = 0
      · rw [if_pos hcid]
      · rw [if_neg hcid, if_pos h]
    | cons p2 rest2 =>
      cases p2 with
      | success contract =>
        rw [getLastTradeResult]
        by_cases hcid : cid = 0
        · rw [if_pos hcid]
        · rw [if_neg hcid, if_pos h]
      | authError =>
        cases auths with
        | nil =>
          rw [getLastTradeResult]
          by_cases hcid : cid = 0
          · rw [if_pos hcid]
          · rw [if_neg hcid, if_pos h]
        | cons a2 arest2 =>
          rw [getLastTradeResult]
          by_cases hcid : cid = 0
          · rw [if_pos hcid]
          · rw [if_neg hcid, if_pos h]
      | otherError =>
        rw [getLastTradeResult]
        by_cases hcid : cid = 0
        · rw [if_pos hcid]
        · rw [if_neg hcid, if_pos h]
  · induction polls generalizing s auths with
    | nil =>
      intro h
      rw [getLastTradeResult]
      by_cases hcid : cid = 0
      · rw [if_pos hcid]; exact h
      · rw [if_neg hcid]
        by_cases hr : 2 ≤ s.retryToGetLastTradeCount
        · rw [if_pos hr]; exact h
        · rw [if_neg hr]; exact h
    | cons p rest ih =>
      intro h
      cases p with
      | success contract =>
        rw [getLastTradeResult]
        by_cases hcid : cid = 0
        · rw [if_pos hcid]; exact h
        · rw [if_neg hcid]
          by_cases hr : 2 ≤ s.retryToGetLastTradeCount
          · rw [if_pos hr]; exact h
          · rw [if_neg hr]
            simp [handleTradeResult_retry]
      | authError =>
        cases auths with
        | nil =>
          rw [getLastTradeResult]
          by_cases hcid : cid = 0
          · rw [if_pos hcid]; exact h
          · rw [if_neg hcid]
            by_cases hr : 2 ≤ s.retryToGetLastTradeCount
            · rw [if_pos hr]; exact h
            · rw [if_neg hr]
              show s.retryToGetLastTradeCount + 1 ≤ 2
              omega
        | cons a arest =>
          rw [getLastTradeResult]
          by_cases hcid : cid = 0
          · rw [if_pos hcid]; exact h
          · rw [if_neg hcid]
            by_cases hr : 2 ≤ s.retryToGetLastTradeCount
            · rw [if_pos hr]; exact h
            · rw [if_neg hr]
              exact ih _ _ (by show s.retryToGetLastTradeCount + 1 ≤ 2; omega)
      | otherError =>
        rw [getLastTradeResult]
        by_cases hcid : cid = 0
        · rw [if_pos hcid]; exact h
        · rw [if_neg hcid]
          by_cases hr : 2 ≤ s.retryToGetLastTradeCount
          · rw [if_pos hr]; exact h
          · rw [if_neg hr]; exact h
  · intro hcid hretry
    rw [getLastTradeResult, if_neg hcid, if_neg (by omega)]

/-- Witness for `c3_auth_retry` at a concrete input: retry counter exhausted
(first conjunct), within the bound (second), and one auth-failure step
(third). -/
theorem c3_witness :
    (2 ≤ ({ placedState with retryToGetLastTradeCount := 2 } :
            BotState).retryToGetLastTradeCount →
      getLastTradeResult mmId (some 7)
          { placedState with retryToGetLastTradeCount := 2 }
          [PollOutcome.authError] [true] =
        { placedState with retryToGetLastTradeCount := 2 }) ∧
    (({ placedState with retryToGetLastTradeCount := 2 } :
        BotState).retryToGetLastTradeCount ≤ 2 →
      (getLastTradeResult mmId (some 7)
          { placedState with retryToGetLastTradeCount := 2 }
          [PollOutcome.authError] [true]).retryToGetLastTradeCount ≤ 2) ∧
    (7 ≠ 0 →
      ({ placedState with retryToGetLastTradeCount := 2 } :
          BotState).retryToGetLastTradeCount < 2 →
      getLastTradeResult mmId (some 7)
          { placedState with retryToGetLastTradeCount := 2 }
          [PollOutcome.authError] [true] =
        getLastTradeResult mmId (some 7)
          { ({ placedState with retryToGetLastTradeCount := 2 } : BotState) with
            retryToGetLastTradeCount :=
              ({ placedState with retryToGetLastTradeCount := 2 } :
                BotState).retryToGetLastTradeCount + 1,
            isAuthorized := true } [] []) :=
  c3_auth_retry mmId 7 { placedState with retryToGetLastTradeCount := 2 }
    [PollOutcome.authError] [] [true] [] true

/-- Claim C9 is false as stated: a tick arriving while the window holds
fewer than 50 prices is dropped — the window is not mutated and the price is
not appended. -/
theorem c9_counterexample :
    tickUpdate 4 [1, 2, 3] = [1, 2, 3] ∧
    tickUpdate 4 [1, 2, 3] ≠ [1, 2, 3] ++ [4] := by
  exact ⟨rfl, by decide⟩

/-- Claim C9, amended: a history event replaces the window's contents with
the delivered payload; a tick event mutates the window only when it already
holds at least 50 prices, evicting the oldest price FIFO and appending the
new one, and leaves the window unchanged (the tick is dropped) below that;
consequently tick events preserve the window length exactly, so a window of
length at most 50 never grows beyond 50. -/
theorem c9_amended (price : ℚ) (w : List ℚ) (prices : List ℚ) :
    (historyUpdate (some prices) w = prices) ∧
    (50 ≤ w.length → tickUpdate price w = w.drop 1 ++ [price]) ∧
    (w.length < 50 → tickUpdate price w = w) ∧
    ((tickUpdate price w).length = w.length) ∧
    (w.length ≤ 50 → (tickUpdate price w).length ≤ 50) := by
  refine ⟨rfl, ?_, ?_, ?_, ?_⟩
  · intro h
    rw [tickUpdate, if_pos h]
  · intro h
    rw [tickUpdate, if_neg (by omega)]
  · rw [tickUpdate]
    by_cases h : 50 ≤ w.length
    · rw [if_pos h]
      simp only [List.length_append, List.length_drop, List.length_cons,
        List.length_nil]
      omega
    · rw [if_neg h]
  · intro h
    rw [tickUpdate]
    by_cases h50 : 50 ≤ w.length
    · rw [if_pos h50]
      simp only [List.length_append, List.length_drop, List.length_cons,
        List.length_nil]
      omega
    · rw [if_neg h50]
      exact h

/-- Witness for `c9_amended` at a concrete input. -/
theorem c9_witness :
    (historyUpdate (some [5, 6]) [1, 2, 3] = [5, 6]) ∧
    (50 ≤ ([1, 2, 3] : List ℚ).length →
      tickUpdate 4 [1, 2, 3] = ([1, 2, 3] : List ℚ).drop 1 ++ [4]) ∧
    (([1, 2, 3] : List ℚ).length < 50 → tickUpdate 4 [1, 2, 3] = [1, 2, 3]) ∧
    ((tickUpdate 4 [1, 2, 3]).length = ([1, 2, 3] : List ℚ).length) ∧
    (([1, 2, 3] : List ℚ).length ≤ 50 → (tickUpdate 4 [1, 2, 3]).length ≤ 50) :=
  c9_amended 4 [1, 2, 3] [5, 6]


/-- Claim C4: every detector returns signal HOLD with confidence 0 when the
input is shorter than its stated minimum length (20 for MeanReversion, 15
for MomentumConfirmation, 50 for the Hurst-regime detector, 20 for
MomentumPersistent, whatever the optional historical Hurst argument). -/
theorem c4_min_length (ticks : List ℝ) :
    (ticks.length < 20 →
      (estrategiaMeanReversion ticks).sinal = Sinal.HOLD ∧
      (estrategiaMeanReversion ticks).confianca = 0) ∧
    (ticks.length < 15 →
      (estrategiaMomentumConfirmado ticks).sinal = Sinal.HOLD ∧
      (estrategiaMomentumConfirmado ticks).confianca = 0) ∧
    (ticks.length < 50 →
      (estrategiaHurst ticks).sinal = Sinal.HOLD ∧
      (estrategiaHurst ticks).confianca = 0) ∧
    (∀ hurstHistorico : Option ℝ, ticks.length < 20 →
      (momentumPersistentStrategy ticks hurstHistorico).sinal = Sinal.HOLD ∧
      (momentumPersistentStrategy ticks hurstHistorico).confianca = 0) := by
  refine ⟨fun h => ?_, fun h => ?_, fun h => ?_, fun o h => ?_⟩
  · rw [estrategiaMeanReversion, if_pos h]
    exact ⟨rfl, rfl⟩
  · rw [estrategiaMomentumConfirmado, if_pos h]
    exact ⟨rfl, rfl⟩
  · rw [estrategiaHurst, if_pos h]
    exact ⟨rfl, rfl⟩
  · rw [momentumPersistentStrategy, momentumPersistentCore, if_pos h]
    exact ⟨rfl, rfl⟩

/-- Witness for `c4_min_length` on the empty price list. -/
theorem c4_witness :
    ((estrategiaMeanReversion []).sinal = Sinal.HOLD ∧
      (estrategiaMeanReversion []).confianca = 0) ∧
    ((estrategiaMomentumConfirmado []).sinal = Sinal.HOLD ∧
      (estrategiaMomentumConfirmado []).confianca = 0) ∧
    ((estrategiaHurst []).sinal = Sinal.HOLD ∧
      (estrategiaHurst []).confianca = 0) ∧
    ((momentumPersistentStrategy [] none).sinal = Sinal.HOLD ∧
      (momentumPersistentStrategy [] none).confianca = 0) := by
  have h := c4_min_length ([] : List ℝ)
  exact ⟨h.1 (by simp), h.2.1 (by simp), h.2.2.1 (by simp),
    h.2.2.2 none (by simp)⟩

/-- Claim C10: with at least 20 but fewer than 50 prices and no
caller-supplied Hurst value, MomentumPersistent always holds: the Hurst
value stays at its default 0.5, so the persistence precondition of both
signal rules fails. -/
theorem c10_hold_without_hurst (ticks : List ℝ) (h20 : 20 ≤ ticks.length)
    (h50 : ticks.length < 50) :
    (momentumPersistentStrategy ticks none).sinal = Sinal.HOLD ∧
    (momentumPersistentStrategy ticks none).confianca = 0 := by
  simp only [momentumPersistentStrategy, momentumPersistentCore]
  rw [if_neg (by omega : ¬ticks.length < 20)]
  rw [if_neg (fun hc => absurd hc.2 (by omega) :
    ¬((True ∨ (none : Option ℝ) = some 0) ∧ 50 ≤ ticks.length))]
  norm_num

/-- Witness for `c10_hold_without_hurst` on a 20-tick constant series. -/
theorem c10_witness :
    (momentumPersistentStrategy (List.replicate 20 (1 : ℝ)) none).sinal
      = Sinal.HOLD ∧
    (momentumPersistentStrategy (List.replicate 20 (1 : ℝ)) none).confianca
      = 0 :=
  c10_hold_without_hurst (List.replicate 20 (1 : ℝ)) (by simp) (by simp)

/-- Claim C7: the emitted signal and confidence of MomentumPersistent do not
depend on the lateral-market flag (first conjunct: the body produces the
same signal and confidence whatever flag value is stored), and for every
input past the length guard the stored flag is set exactly when
`eficiencia < 0.3` or `adx < 25` or the direction-reversal count exceeds 5
(second conjunct). -/
theorem c7_lateral_flag (ticks : List ℝ) (o : Option ℝ) (b1 b2 : Bool) :
    ((momentumPersistentCore ticks o b1).sinal
        = (momentumPersistentCore ticks o b2).sinal ∧
      (momentumPersistentCore ticks o b1).confianca
        = (momentumPersistentCore ticks o b2).confianca) ∧
    (20 ≤ ticks.length →
      ((momentumPersistentStrategy ticks o).isLateral = true ↔
        (eficiencia15 ticks < 0.3 ∨ adx15 ticks < 25 ∨
          5 < mudancasDirecao15 ticks))) := by
  constructor
  · simp only [momentumPersistentCore]
    split_ifs <;> exact ⟨rfl, rfl⟩
  · intro h
    have hflag : ∀ b : Bool,
        (momentumPersistentCore ticks o b).isLateral = b := by
      intro b
      simp only [momentumPersistentCore]
      rw [if_neg (by omega : ¬ticks.length < 20)]
      split_ifs <;> rfl
    rw [momentumPersistentStrategy, hflag, mpsIsLateralCalc]
    split_ifs with hc
    · simp [hc]
    · simp [hc]

/-- Witness for `c7_lateral_flag` on a 20-tick constant series with flag
values true and false. -/
theorem c7_witness :
    (((momentumPersistentCore (List.replicate 20 (1 : ℝ)) none true).sinal
        = (momentumPersistentCore (List.replicate 20 (1 : ℝ)) none false).sinal ∧
      (momentumPersistentCore (List.replicate 20 (1 : ℝ)) none true).confianca
        = (momentumPersistentCore (List.replicate 20 (1 : ℝ)) none
            false).confianca)) ∧
    ((momentumPersistentStrategy (List.replicate 20 (1 : ℝ)) none).isLateral
        = true ↔
      (eficiencia15 (List.replicate 20 (1 : ℝ)) < 0.3 ∨
        adx15 (List.replicate 20 (1 : ℝ)) < 25 ∨
        5 < mudancasDirecao15 (List.replicate 20 (1 : ℝ)))) :=
  ⟨(c7_lateral_flag (List.replicate 20 (1 : ℝ)) none true false).1,
    (c7_lateral_flag (List.replicate 20 (1 : ℝ)) none true false).2 (by simp)⟩

/-- Bound for the MeanReversion confidence formula. -/
lemma mrConfBound {z b : ℝ} (hz : 1.5 < z ∨ z < -1.5) (hb : 0 ≤ b) :
    0 ≤ min ((|z| - 1) / 2 + b) 0.85 ∧ min ((|z| - 1) / 2 + b) 0.85 ≤ 1 := by
  constructor
  · refine le_min ?_ (by norm_num)
    have habs : 1.5 ≤ |z| := by
      rcases hz with h | h
      · exact le_trans h.le (le_abs_self z)
      · exact le_trans (by linarith) (neg_le_abs z)
    linarith
  · exact le_trans (min_le_right _ _) (by norm_num)

/-- Bound for the main MomentumConfirmation confidence formula. -/
lemma mcConfBoundA {c f : ℝ} (hc : 3 ≤ c) (hf : 1.5 < f) :
    0 ≤ min (0.5 + (c - 3) * 0.1 + (f - 1.5) * 0.1) 0.8 ∧
    min (0.5 + (c - 3) * 0.1 + (f - 1.5) * 0.1) 0.8 ≤ 1 :=
  ⟨le_min (by nlinarith) (by norm_num),
    le_trans (min_le_right _ _) (by norm_num)⟩

/-- Bound for the alternative MomentumConfirmation confidence formula. -/
lemma mcConfBoundB {c : ℝ} (hc : 4 ≤ c) :
    0 ≤ min (0.45 + (c - 4) * 0.1) 0.7 ∧
    min (0.45 + (c - 4) * 0.1) 0.7 ≤ 1 :=
  ⟨le_min (by nlinarith) (by norm_num),
    le_trans (min_le_right _ _) (by norm_num)⟩

/-- Bound for the Hurst-regime confidence formula. -/
lemma hurstConfBound {e r : ℝ} (hr : 0.5 < r) :
    0 ≤ min (|e - 0.5| * 2 * r * 1.5) 0.7 ∧
    min (|e - 0.5| * 2 * r * 1.5) 0.7 ≤ 1 :=
  ⟨le_min (by nlinarith [abs_nonneg (e - 0.5)]) (by norm_num),
    le_trans (min_le_right _ _) (by norm_num)⟩

/-- Bound for the primary MomentumPersistent confidence formula. -/
lemma mpsConfBound1 {hu r a fo ef : ℝ} (hh : 0.58 < hu) (hr : 0 ≤ r)
    (ha : 0.8 ≤ a) (hfo : 0 ≤ fo) (hef : 0 ≤ ef) :
    0 ≤ min ((hu - 0.5) * 2 + r * 0.2 + a * 0.2 + min (fo * 0.1) 0.2 +
        ef * 0.2) 0.80 ∧
    min ((hu - 0.5) * 2 + r * 0.2 + a * 0.2 + min (fo * 0.1) 0.2 +
        ef * 0.2) 0.80 ≤ 1 := by
  constructor
  · refine le_min ?_ (by norm_num)
    have h1 : 0 ≤ min (fo * 0.1) 0.2 := le_min (by nlinarith) (by norm_num)
    nlinarith
  · exact le_trans (min_le_right _ _) (by norm_num)

/-- Bound for the secondary MomentumPersistent confidence formula. -/
lemma mpsConfBound2 {hu fo : ℝ} (hh : 0.58 < hu) (hfo : 1.5 < fo) :
    0 ≤ min ((hu - 0.5) * 1.5 + fo * 0.1) 0.55 ∧
    min ((hu - 0.5) * 1.5 + fo * 0.1) 0.55 ≤ 1 :=
  ⟨le_min (by nlinarith) (by norm_num),
    le_trans (min_le_right _ _) (by norm_num)⟩

/-- The efficiency ratio is nonnegative. -/
lemma eficiencia15_nonneg (ticks : List ℝ) : 0 ≤ eficiencia15 ticks := by
  simp only [eficiencia15]
  split_ifs with h
  · exact div_nonneg (abs_nonneg _) h.le
  · exact le_refl 0

/-- The normalized force is nonnegative. -/
lemma forcaDe_nonneg (stdDev varCurta : ℝ) : 0 ≤ forcaDe stdDev varCurta := by
  simp only [forcaDe]
  split_ifs with h
  · exact div_nonneg (abs_nonneg _) h.le
  · exact le_refl 0

/-- The fast estimator's R² is clamped to be nonnegative. -/
lemma rapidoFit_r2_nonneg (points : List (ℝ × ℝ)) :
    0 ≤ (rapidoFit points).r2 := by
  simp only [rapidoFit]
  split_ifs with h1 h2
  · exact le_refl 0
  · exact le_max_left 0 _
  · exact le_refl 0

/-- `calcularHurstRapido` always reports a nonnegative R². -/
lemma calcularHurstRapido_r2_nonneg (ticks : List ℝ) :
    0 ≤ (calcularHurstRapido ticks).r2 := by
  simp only [calcularHurstRapido]
  split_ifs with h1 h2
  · exact le_refl 0
  · exact le_refl 0
  · exact rapidoFit_r2_nonneg _

/-- MeanReversion confidence lies in [0, 1]. -/
lemma mr_conf_range (ticks : List ℝ) :
    0 ≤ (estrategiaMeanReversion ticks).confianca ∧
    (estrategiaMeanReversion ticks).confianca ≤ 1 := by
  simp only [estrategiaMeanReversion]
  split_ifs <;>
    first
      | (exfalso; simp_all; done)
      | (rename_i hg hb
         first
           | exact mrConfBound (Or.inl hg.1) (by norm_num)
           | exact mrConfBound (Or.inr hg.1) (by norm_num))
      | norm_num

/-- MomentumConfirmation confidence lies in [0, 1]. -/
lemma mc_conf_range (ticks : List ℝ) :
    0 ≤ (estrategiaMomentumConfirmado ticks).confianca ∧
    (estrategiaMomentumConfirmado ticks).confianca ≤ 1 := by
  simp only [estrategiaMomentumConfirmado]
  split_ifs <;>
    first
      | (exfalso; simp_all; done)
      | (rename_i hg
         first
           | exact mcConfBoundA (by exact_mod_cast hg.1) hg.2.1
           | exact mcConfBoundB (by exact_mod_cast hg.1))
      | norm_num

/-- Hurst-regime confidence lies in [0, 1]. -/
lemma hurst_conf_range (ticks : List ℝ) :
    0 ≤ (estrategiaHurst ticks).confianca ∧
    (estrategiaHurst ticks).confianca ≤ 1 := by
  simp only [estrategiaHurst]
  simp only [apply_ite HurstEstrategiaResult.confianca]
  split_ifs <;>
    first
      | (exfalso; simp_all; done)
      | (rename_i hg hd; exact hurstConfBound hg.2.1)
      | norm_num

/-- MomentumPersistent confidence lies in [0, 1], whatever flag is stored. -/
lemma mps_conf_range (ticks : List ℝ) (o : Option ℝ) (b : Bool) :
    0 ≤ (momentumPersistentCore ticks o b).confianca ∧
    (momentumPersistentCore ticks o b).confianca ≤ 1 := by
  simp only [momentumPersistentCore]
  simp only [apply_ite MomentumPersistenteResult.confianca]
  split_ifs <;>
    first
      | (exfalso; simp_all; done)
      | (rename_i hg hd
         first
           | exact mpsConfBound1 hg.1 (calcularHurstRapido_r2_nonneg ticks)
               hg.2 (forcaDe_nonneg _ _) (eficiencia15_nonneg ticks)
           | exact mpsConfBound1 hg.1 (by norm_num) hg.2
               (forcaDe_nonneg _ _) (eficiencia15_nonneg ticks)
           | exact mpsConfBound2 hg.1 hg.2.2)
      | norm_num

/-- Claim C8: all four detectors always emit a confidence in [0, 1]
(for MomentumPersistent, whatever the optional historical Hurst value). -/
theorem c8_confidence_range (ticks : List ℝ) (o : Option ℝ) :
    (0 ≤ (estrategiaMeanReversion ticks).confianca ∧
      (estrategiaMeanReversion ticks).confianca ≤ 1) ∧
    (0 ≤ (estrategiaMomentumConfirmado ticks).confianca ∧
      (estrategiaMomentumConfirmado ticks).confianca ≤ 1) ∧
    (0 ≤ (estrategiaHurst ticks).confianca ∧
      (estrategiaHurst ticks).confianca ≤ 1) ∧
    (0 ≤ (momentumPersistentStrategy ticks o).confianca ∧
      (momentumPersistentStrategy ticks o).confianca ≤ 1) :=
  ⟨mr_conf_range ticks, mc_conf_range ticks, hurst_conf_range ticks,
    mps_conf_range ticks o (mpsIsLateralCalc ticks)⟩

/-- On a constant positive series the unguarded log-returns are all zero. -/
lemma logReturns_replicate (n : ℕ) {c : ℝ} (hc : c ≠ 0) :
    logReturns (List.replicate n c) = List.replicate (n - 1) 0 := by
  rw [logReturns, List.tail_replicate, List.zipWith_replicate, div_self hc,
    Real.log_one]
  congr 1
  omega

/-- On a constant positive series the guarded log-returns are all zero. -/
lemma logReturnsGuarded_replicate (n : ℕ) {c : ℝ} (hc : 0 < c) :
    logReturnsGuarded (List.replicate n c) = List.replicate (n - 1) 0 := by
  rw [logReturnsGuarded, List.tail_replicate, List.zip_replicate,
    List.filterMap_replicate]
  simp only [hc, and_self, if_true, div_self (ne_of_gt hc), Real.log_one]
  congr 1
  omega

/-- A window of zero returns has `S = 0`, so its R/S value is skipped. -/
lemma rsWindowRapido_replicate_zero (scale k : ℕ) :
    rsWindowRapido scale (List.replicate k (0 : ℝ)) = none := by
  simp [rsWindowRapido, List.sum_replicate, zero_div, sub_zero, mul_zero,
    Real.sqrt_zero, lt_irrefl]

/-- No scale contributes a regression point on a zero-return series. -/
lemma rapidoPointAtScale_replicate_zero (m scale : ℕ) :
    rapidoPointAtScale (List.replicate m (0 : ℝ)) scale = none := by
  rw [rapidoPointAtScale]
  split_ifs with h1
  · rfl
  · have hrs : (List.range ((List.replicate m (0 : ℝ)).length / scale)).filterMap
        (fun w =>
          rsWindowRapido scale
            (((List.replicate m (0 : ℝ)).drop (w * scale)).take scale)) = [] := by
      refine List.filterMap_eq_nil_iff.mpr (fun a _ => ?_)
      rw [List.drop_replicate, List.take_replicate]
      exact rsWindowRapido_replicate_zero _ _
    rw [hrs]
    rfl

/-- `calcularHurstRapido` is neutral on every constant positive series. -/
lemma calcularHurstRapido_const (n : ℕ) {c : ℝ} (hc : 0 < c) :
    calcularHurstRapido (List.replicate n c) = ⟨0.5, 0⟩ := by
  simp only [calcularHurstRapido]
  rw [logReturnsGuarded_replicate n hc]
  by_cases h30 : (List.replicate (n - 1) (0 : ℝ)).length < 30
  · rw [if_pos h30]
  · rw [if_neg h30]
    have hpts : rapidoPointsOf (List.replicate (n - 1) (0 : ℝ)) = [] := by
      simp [rapidoPointsOf, rapidoPointAtScale_replicate_zero]
    rw [hpts]
    norm_num

/-- `estrategiaHurst` returns its neutral default on every constant positive
series (short input, or the zero-variance guard). -/
lemma estrategiaHurst_const (n : ℕ) {c : ℝ} (hc : c ≠ 0) :
    estrategiaHurst (List.replicate n c) =
      ⟨Sinal.HOLD, 0, 0.5, Persistencia.MEDIA, 0, Comportamento.ALEATORIO,
        Direcao.LATERAL, 0⟩ := by
  simp only [estrategiaHurst]
  rw [logReturns_replicate n hc]
  by_cases h50 : (List.replicate n c).length < 50
  · rw [if_pos h50]
  · rw [if_neg h50]
    simp only [List.map_replicate, mul_zero, List.sum_replicate, smul_zero,
      zero_div]
    rw [if_pos (by norm_num : (0 : ℝ) < 1e-12)]

/-- Claim C6: on every constant (all-equal, positive) price series, of any
length, both rescaled-range estimators return the neutral Hurst 0.5 with
R² 0 (in the real-number model both functions are total, so no exception,
NaN or Infinity can arise; the zero-variance early exits are what the
theorem exercises). -/
theorem c6_constant_series (n : ℕ) (c : ℝ) (hc : 0 < c) :
    (estrategiaHurst (List.replicate n c)).expoente = 0.5 ∧
    (estrategiaHurst (List.replicate n c)).r2 = 0 ∧
    (estrategiaHurst (List.replicate n c)).sinal = Sinal.HOLD ∧
    calcularHurstRapido (List.replicate n c) = ⟨0.5, 0⟩ := by
  rw [estrategiaHurst_const n (ne_of_gt hc), calcularHurstRapido_const n hc]
  exact ⟨rfl, rfl, rfl, rfl⟩

/-- Witness for `c6_constant_series`: the price 100 repeated 60 times (the
spec's flat-series scenario). -/
theorem c6_witness :
    (estrategiaHurst (List.replicate 60 (100 : ℝ))).expoente = 0.5 ∧
    (estrategiaHurst (List.replicate 60 (100 : ℝ))).r2 = 0 ∧
    (estrategiaHurst (List.replicate 60 (100 : ℝ))).sinal = Sinal.HOLD ∧
    calcularHurstRapido (List.replicate 60 (100 : ℝ)) = ⟨0.5, 0⟩ :=
  c6_constant_series 60 100 (by norm_num)

/-- Claim C5, amended: the Hurst-regime detector's estimator indeed never
fits a slope from fewer than 3 regression points (neutral 0.5 / 0), but the
fast estimator used by MomentumPersistent only requires 2 points — it is
neutral merely when fewer than 2 points were collected. -/
theorem c5_amended (ticks : List ℝ) :
    ((hurstPointsOf ticks).length < 3 →
      (estrategiaHurst ticks).expoente = 0.5 ∧
      (estrategiaHurst ticks).r2 = 0) ∧
    ((rapidoPointsOf (logReturnsGuarded ticks)).length < 2 →
      calcularHurstRapido ticks = ⟨0.5, 0⟩) := by
  constructor
  · intro h
    have hfit : hurstFit (hurstPointsOf ticks) = (0.5, 0) := by
      rw [hurstFit, if_neg (by omega)]
    simp only [estrategiaHurst, hfit]
    split_ifs <;> exact ⟨rfl, rfl⟩
  · intro h
    simp only [calcularHurstRapido]
    by_cases h1 : (logReturnsGuarded ticks).length < 30
    · rw [if_pos h1]
    · rw [if_neg h1, if_pos h]

/-- Witness for `c5_amended` on the empty price list. -/
theorem c5_witness :
    (estrategiaHurst ([] : List ℝ)).expoente = 0.5 ∧
    (estrategiaHurst ([] : List ℝ)).r2 = 0 ∧
    calcularHurstRapido ([] : List ℝ) = ⟨0.5, 0⟩ := by
  have h := c5_amended ([] : List ℝ)
  have h1 := h.1 (by simp [hurstPointsOf, logReturns, scaleList])
  have h2 := h.2 (by simp [rapidoPointsOf, rapidoPointAtScale, logReturnsGuarded])
  exact ⟨h1.1, h1.2, h2⟩

/-- The guarded log-returns of `ticks31` alternate between 1 and -1. -/
lemma ticks31_diffs : logReturnsGuarded ticks31 = altDiffs30 := by
  simp [ticks31, altDiffs30, logReturnsGuarded, Real.exp_pos, Real.log_exp,
    div_one, one_div, Real.log_inv]

/-- A scale-8 alternating window has mean 0, range 1 and deviation 1, so its
R/S value is 1. -/
lemma rsW8 : rsWindowRapido 8 alt8 = some 1 := by
  norm_num [rsWindowRapido, alt8, cumSums, listMax, listMin, List.scanl,
    max_def, min_def, Real.sqrt_one]

/-- A scale-12 alternating window also has R/S value 1. -/
lemma rsW12 : rsWindowRapido 12 alt12 = some 1 := by
  norm_num [rsWindowRapido, alt12, cumSums, listMax, listMin, List.scanl,
    max_def, min_def, Real.sqrt_one]

/-- Scale 8 contributes the regression point `(ln 8, ln 1) = (ln 8, 0)`. -/
lemma p8eval : rapidoPointAtScale altDiffs30 8 = some (Real.log 8, 0) := by
  have e0 : (altDiffs30.drop (0 * 8)).take 8 = alt8 := rfl
  have e1 : (altDiffs30.drop (1 * 8)).take 8 = alt8 := rfl
  have e2 : (altDiffs30.drop (2 * 8)).take 8 = alt8 := rfl
  rw [rapidoPointAtScale, show altDiffs30.length = 30 from rfl,
    if_neg (by norm_num : ¬(30 < 8 * 2)),
    show List.range (30 / 8) = [0, 1, 2] from rfl]
  simp only [List.filterMap_cons, List.filterMap_nil, e0, e1, e2, rsW8]
  norm_num [Real.log_one]

/-- Scale 12 contributes the regression point `(ln 12, 0)`. -/
lemma p12eval : rapidoPointAtScale altDiffs30 12 = some (Real.log 12, 0) := by
  have e0 : (altDiffs30.drop (0 * 12)).take 12 = alt12 := rfl
  have e1 : (altDiffs30.drop (1 * 12)).take 12 = alt12 := rfl
  rw [rapidoPointAtScale, show altDiffs30.length = 30 from rfl,
    if_neg (by norm_num : ¬(30 < 12 * 2)),
    show List.range (30 / 12) = [0, 1] from rfl]
  simp only [List.filterMap_cons, List.filterMap_nil, e0, e1, rsW12]
  norm_num [Real.log_one]

/-- Scales 16, 24 and 32 are skipped: 30 returns are too few. -/
lemma p16eval : rapidoPointAtScale altDiffs30 16 = none := by
  rw [rapidoPointAtScale, show altDiffs30.length = 30 from rfl]
  exact if_pos (by norm_num)

lemma p24eval : rapidoPointAtScale altDiffs30 24 = none := by
  rw [rapidoPointAtScale, show altDiffs30.length = 30 from rfl]
  exact if_pos (by norm_num)

lemma p32eval : rapidoPointAtScale altDiffs30 32 = none := by
  rw [rapidoPointAtScale, show altDiffs30.length = 30 from rfl]
  exact if_pos (by norm_num)

/-- Exactly two regression points are collected on `altDiffs30`. -/
lemma pointsEval :
    rapidoPointsOf altDiffs30 = [(Real.log 8, 0), (Real.log 12, 0)] := by
  simp only [rapidoPointsOf, List.filterMap_cons, List.filterMap_nil, p8eval,
    p12eval, p16eval, p24eval, p32eval]

/-- The fast estimator fits a slope from the two collected points: the
regression degenerates to slope 0, clamped up to hurst 0.1 with R² 0. -/
lemma rapidoFit_pts :
    rapidoFit [(Real.log 8, 0), (Real.log 12, 0)] = ⟨0.1, 0⟩ := by
  simp only [rapidoFit, List.map_cons, List.map_nil, List.sum_cons,
    List.sum_nil, List.length_cons, List.length_nil]
  norm_num
  have hlog : Real.log 8 - Real.log 12 ≤ -(1 / 3 : ℝ) := by
    have h1 : Real.log 8 - Real.log 12 = Real.log (8 / 12) := by
      rw [Real.log_div (by norm_num) (by norm_num)]
    rw [h1, show (8 : ℝ) / 12 = 2 / 3 by norm_num]
    have h2 := Real.log_le_sub_one_of_pos (show (0 : ℝ) < 2 / 3 by norm_num)
    linarith
  have habs : 2 * (Real.log 8 * Real.log 8 + Real.log 12 * Real.log 12) -
      (Real.log 8 + Real.log 12) * (Real.log 8 + Real.log 12) =
      (Real.log 8 - Real.log 12) ^ 2 := by ring
  rw [habs, abs_of_nonneg (sq_nonneg _)]
  nlinarith [hlog, sq_nonneg (Real.log 8 - Real.log 12 + 1 / 3)]

/-- The fast estimator on `ticks31`: 30 valid returns, two regression
points, and a fitted (clamped) result of `(0.1, 0)`. -/
lemma calc_ticks31 : calcularHurstRapido ticks31 = ⟨0.1, 0⟩ := by
  simp only [calcularHurstRapido]
  rw [ticks31_diffs, show altDiffs30.length = 30 from rfl,
    if_neg (by norm_num : ¬(30 < 30)), pointsEval,
    show ([(Real.log 8, 0), (Real.log 12, 0)] : List (ℝ × ℝ)).length = 2
      from rfl,
    if_neg (by norm_num : ¬(2 < 2))]
  exact rapidoFit_pts

/-- Claim C5 is false as stated for the fast estimator: on the 31-tick
series `ticks31` only 2 regression points are collected, yet the estimator
does not return the neutral `(0.5, 0)` — it fits a slope from the 2 points
and returns `(0.1, 0)`. -/
theorem c5_counterexample :
    (rapidoPointsOf (logReturnsGuarded ticks31)).length = 2 ∧
    calcularHurstRapido ticks31 ≠ ⟨0.5, 0⟩ := by
  constructor
  · rw [ticks31_diffs, pointsEval]
    rfl
  · rw [calc_ticks31]
    intro hcontra
    have h1 : (0.1 : ℝ) = 0.5 := congrArg HurstRapido.hurst hcontra
    norm_num at h1
